import Mathlib

/-!
Shallow embedding of the dll-cache engine of webpack-resolve-library-plugin
(src/unnamed/part_001, the development-mode variant, and src/lib/index.js).

File contents (package.json, dll.json) are modelled at the level the plugin
observes them: an abstract file state records whether the file is missing,
present but not valid JSON, or parses to a JSON value.  JS `undefined` is
modelled with `Option`; lodash `isEqual` on plain string→string objects is
modelled by `mapEqual`.
-/

/-- A dependency mapping as a JS object of name → version-range pairs,
in insertion (descriptor) order.  JS objects never hold duplicate keys;
where a proof needs that fact it takes `nodupKeys` as a hypothesis. -/
abbrev DepsMap := List (String × String)

/-- JS objects have pairwise-distinct keys. -/
def nodupKeys (m : DepsMap) : Prop := (m.map Prod.fst).Nodup

instance (m : DepsMap) : Decidable (nodupKeys m) := by
  unfold nodupKeys; infer_instance

/-- A parsed JSON value as the plugin observes one: an object of string
values, or JSON null. -/
inductive JsVal
  | obj (m : DepsMap)
  | null
deriving DecidableEq, Repr

/-- JS truthiness of a parsed JSON value: objects are truthy, null is falsy. -/
def jsTruthy : JsVal → Bool
  | .obj _ => true
  | .null => false

/-- lodash `isEqual` on two string→string objects: same key set, equal value
at every key (deep equality of plain objects; key order irrelevant).
Source: `isEqual(cache, deps)` in `make` (src/unnamed/part_001 line 144). -/
def mapEqual (a b : DepsMap) : Bool :=
  (a.all fun p => b.lookup p.1 == some p.2) &&
    (b.all fun p => a.lookup p.1 == some p.2)

/-- The value read from `JSON.parse(pkg).dependencies`: `none` models the JS
`undefined` obtained when package.json has no `dependencies` field. -/
abbrev JsDeps := Option DepsMap

/-- lodash `isEqual` between the parsed dll cache value and the current
`deps` value (which may be `undefined`): objects compare by `mapEqual`,
any mixed comparison is false. -/
def isEqualJs (cache : JsVal) (deps : JsDeps) : Bool :=
  match cache, deps with
  | .obj a, some b => mapEqual a b
  | _, _ => false

/-- Content of a JSON file (dll.json or package.json) as the fs/JSON layer
sees it: the file is absent (`fs.readFile` rejects), present but
`JSON.parse` throws, or parses to a value. -/
inductive CacheFile
  | missing
  | malformed
  | parsed (v : JsVal)
deriving DecidableEq, Repr

/-- Snapshot load step of `make` (src/unnamed/part_001 lines 126-138):
`fs.readFile(dllCachePath).then(c => JSON.parse(c)).catch(_ => absent)` —
a missing file and a parse failure are both recovered to "absent";
the step is total and never propagates an error. -/
def loadCache : CacheFile → Option JsVal
  | .missing => none
  | .malformed => none
  | .parsed v => some v

/-- Content of package.json as observed by `make`: missing, unparsable, or
parsed with its `dependencies` field (`none` = field absent). -/
inductive PkgFile
  | missing
  | malformed
  | parsed (deps : JsDeps)
deriving DecidableEq, Repr

/-- package.json read step of `make` (src/unnamed/part_001 lines 115-125):
read+parse, with the `.catch` rethrowing as "Can't find package.json" for
both a missing file and a parse failure. -/
def readDeps : PkgFile → Except String JsDeps
  | .missing => .error "Can't find package.json"
  | .malformed => .error "Can't find package.json"
  | .parsed d => .ok d

/-- The skip condition of `make` (src/unnamed/part_001 line 144):
`cache && isEqual(cache, deps)` — skip the build only when `opts.cache` was
set, is truthy, and is deeply equal to `deps`. -/
def skipBuild (cache : Option JsVal) (deps : JsDeps) : Bool :=
  match cache with
  | none => false
  | some c => jsTruthy c && isEqualJs c deps

/-- The rebuild decision: `build(deps)` is reached exactly when the skip
condition fails (src/unnamed/part_001 lines 140-148). -/
def needsRebuild (cache : Option JsVal) (deps : JsDeps) : Bool :=
  !(skipBuild cache deps)

/-- What `make` decides to do after its two reads. -/
inductive MakeAction
  | skip
  | build (deps : JsDeps)
deriving DecidableEq, Repr

/-- Log verbosity option: `true`, `false`, `'info'`, `'verbose'`, `'none'`. -/
inductive LogOpt
  | tru
  | fls
  | info
  | verbose
  | noneStr
deriving DecidableEq, Repr

/-- The logging guard written in the source as
`log !== false || log !== 'none'` (src/unnamed/part_001 lines 134, 209, 291). -/
def logGate (log : LogOpt) : Bool :=
  (log != LogOpt.fls) || (log != LogOpt.noneStr)

/-- Result of running `make` up to (and including) its decision, together
with whether the "start to build" message was printed. -/
structure MakeResult where
  decision : Except String MakeAction
  startLogged : Bool
deriving Repr

/-- `make` (src/unnamed/part_001 lines 113-149): read package.json (errors
are fatal), read dll.json (errors recovered to absent, printing the start
message under the log guard), then skip or build. -/
def make (pkg : PkgFile) (cacheF : CacheFile) (log : LogOpt) : MakeResult :=
  match readDeps pkg with
  | .error e => { decision := .error e, startLogged := false }
  | .ok deps =>
      let cache := loadCache cacheF
      let startLogged :=
        match cacheF with
        | .parsed _ => false
        | _ => logGate log
      { decision :=
          if skipBuild cache deps then .ok MakeAction.skip
          else .ok (MakeAction.build deps),
        startLogged := startLogged }

/-- JS `Array.prototype.indexOf` with a running index. -/
def jsIndexOfAux (x : String) : List String → Int → Int
  | [], _ => -1
  | y :: ys, i => if y == x then i else jsIndexOfAux x ys (i + 1)

/-- JS `l.indexOf(x)`: index of the first occurrence, `-1` when absent. -/
def jsIndexOf (l : List String) (x : String) : Int :=
  jsIndexOfAux x l 0

/-- Entry list of the dll bundle (src/unnamed/part_001 lines 156-160):
`Object.keys(deps).concat(include).filter(x => !~exclude.indexOf(x))` —
`!~n` is truthy exactly when `n === -1`, i.e. when `x` is not excluded. -/
def entryList (deps : DepsMap) (includeList excludeList : List String) :
    List String :=
  ((deps.map Prod.fst) ++ includeList).filter
    (fun x => jsIndexOf excludeList x == -1)

/-- `Object.keys` applied to a possibly-undefined value: throws a TypeError
on `undefined` (src/unnamed/part_001 line 157 when package.json has no
`dependencies` field). -/
def jsObjectKeys : JsDeps → Except String (List String)
  | none => .error "Cannot convert undefined or null to object"
  | some m => .ok (m.map Prod.fst)

/-- How the `build` promise can reject. -/
inductive BuildReject
  | typeError (msg : String)
  | fatal (e : String)
  | compileErrors (errs : List String)
deriving DecidableEq, Repr

/-- Observable effects of one `build(deps)` call
(src/unnamed/part_001 lines 154-216). -/
structure BuildEffects where
  /-- How the returned promise settles (a promise keeps its first settle). -/
  outcome : Except BuildReject Unit
  /-- Entry list handed to webpack, `none` when `Object.keys(deps)` threw. -/
  entry : Option (List String)
  /-- Content of dll.json after the call. -/
  cacheFile : CacheFile
  /-- mtime applied to the manifest by `fs.utimes`, in seconds. -/
  manifestMtime : Option ℚ
  /-- Whether the "build dll successfully" message was printed. -/
  successLogged : Bool
deriving Repr

/-- `build(deps)` (src/unnamed/part_001 lines 154-216).  Parameters beyond
the data: `wErr` is the webpack invocation error (`err`), `errors` the
compile errors of `stats` (`info.errors`), `dateNowMs` the value of
`Date.now()` in milliseconds, `prevCache` the dll.json content before the
call.  Control flow mirrors the callback: on `err`, reject and return; on
`stats.hasErrors()`, reject with `info.errors` — but with no `return`, so
the code still falls through to `fs.utimes(manifestPath, now, now)` and
`fs.writeFile(dllCachePath, JSON.stringify(deps))` (lines 202-213). -/
def build (deps : JsDeps) (includeList excludeList : List String)
    (wErr : Option String) (errors : List String)
    (dateNowMs : ℚ) (log : LogOpt) (prevCache : CacheFile) : BuildEffects :=
  match deps with
  | none =>
      { outcome := .error (.typeError "Cannot convert undefined or null to object"),
        entry := none, cacheFile := prevCache,
        manifestMtime := none, successLogged := false }
  | some m =>
      let entry := entryList m includeList excludeList
      match wErr with
      | some e =>
          { outcome := .error (.fatal e), entry := some entry,
            cacheFile := prevCache,
            manifestMtime := none, successLogged := false }
      | none =>
          let now := dateNowMs / 1000 - 10
          { outcome :=
              match errors with
              | [] => .ok ()
              | _ => .error (.compileErrors errors),
            entry := some entry,
            cacheFile := .parsed (.obj m),
            manifestMtime := some now,
            successLogged := logGate log }

/-- The bundle asset filename `dllName + '.js'`
(src/unnamed/part_001 line 96). -/
def dllAssetName (name : String) : String := name ++ ".js"

/-- The HTML-injection hook body (src/unnamed/part_001 lines 273-276):
`data.assets.js.unshift(dllAssetName)`, unconditionally. -/
def injectScripts (name : String) (assetsJs : List String) : List String :=
  dllAssetName name :: assetsJs

/-- JS timestamps seen by the watch hook: `none` models `undefined`. -/
abbrev JsTs := Option Nat

/-- JS falsiness of a timestamp: `undefined` and `0` are falsy
(`!timestamp` at src/unnamed/part_001 line 285). -/
def tsFalsy : JsTs → Bool
  | none => true
  | some t => t == 0

/-- Observable result of one `watch-run` cycle. -/
structure WatchOutcome where
  /-- The closed-over `pkgTimestamp` after the cycle. -/
  pkgTimestamp : JsTs
  /-- Argument passed to `callback` (`none` = `null`, success). -/
  callbackErr : Option String
deriving DecidableEq, Repr

/-- The `watch-run` hook (src/unnamed/part_001 lines 280-301): read the
descriptor timestamp; if falsy or unchanged, `done()` (record it and call
back with null); otherwise rebuild — `make().then(done).catch(callback)`
records the new timestamp only on success, and passes the failure to
`callback` leaving `pkgTimestamp` untouched. -/
def watchRun (pkgTimestamp : JsTs) (timestamp : JsTs)
    (makeResult : Except String Unit) : WatchOutcome :=
  if tsFalsy timestamp || timestamp == pkgTimestamp then
    { pkgTimestamp := timestamp, callbackErr := none }
  else
    match makeResult with
    | .ok _ => { pkgTimestamp := timestamp, callbackErr := none }
    | .error e => { pkgTimestamp := pkgTimestamp, callbackErr := some e }

/-! ### Helper lemmas -/

/-- In a JS object (no duplicate keys) every stored pair is found by lookup. -/
theorem lookup_self {m : DepsMap} (hm : nodupKeys m) {p : String × String}
    (hp : p ∈ m) : m.lookup p.1 = some p.2 := by
  induction m with
  | nil => cases hp
  | cons q t ih =>
      obtain ⟨k, v⟩ := q
      rw [nodupKeys, List.map_cons, List.nodup_cons] at hm
      rcases List.mem_cons.mp hp with rfl | hp'
      · simp [List.lookup]
      · have hmem : p.1 ∈ t.map Prod.fst := List.mem_map_of_mem Prod.fst hp'
        have hne : (p.1 == k) = false := by
          rw [beq_eq_false_iff_ne]
          intro h
          exact hm.1 (h ▸ hmem)
        simpa [List.lookup, hne] using ih hm.2 hp'

/-- A successful lookup exhibits a stored pair. -/
theorem lookup_some_mem {l : DepsMap} {k v : String}
    (h : l.lookup k = some v) : (k, v) ∈ l := by
  induction l with
  | nil => simp [List.lookup] at h
  | cons q t ih =>
      obtain ⟨a, b⟩ := q
      by_cases hak : a = k
      · subst hak
        simp [List.lookup] at h
        simp [h]
      · have hne : (k == a) = false := beq_eq_false_iff_ne.mpr fun h => hak h.symm
        simp [List.lookup, hne] at h
        exact List.mem_cons_of_mem _ (ih h)

/-- `mapEqual` is exactly equality of the two objects as sets of
name→range pairs, provided neither holds duplicate keys. -/
theorem mapEqual_iff_pairSet {a b : DepsMap}
    (ha : nodupKeys a) (hb : nodupKeys b) :
    mapEqual a b = true ↔ ∀ p : String × String, p ∈ a ↔ p ∈ b := by
  rw [mapEqual, Bool.and_eq_true, List.all_eq_true, List.all_eq_true]
  constructor
  · intro h p
    constructor
    · intro hpa
      have h1 : b.lookup p.1 = some p.2 := by simpa using h.1 p hpa
      simpa using lookup_some_mem h1
    · intro hpb
      have h2 : a.lookup p.1 = some p.2 := by simpa using h.2 p hpb
      simpa using lookup_some_mem h2
  · intro h
    constructor
    · intro p hpa
      simpa using lookup_self hb ((h p).mp hpa)
    · intro p hpb
      simpa using lookup_self ha ((h p).mpr hpb)

/-- `mapEqual` is reflexive on duplicate-free objects. -/
theorem mapEqual_refl {m : DepsMap} (hm : nodupKeys m) : mapEqual m m = true :=
  (mapEqual_iff_pairSet hm hm).mpr (fun _ => Iff.rfl)

/-- `indexOf` returns `-1` exactly on the names that are absent
(for any non-negative running index). -/
theorem jsIndexOfAux_eq_neg_one {x : String} {l : List String} {i : Int}
    (hi : 0 ≤ i) : jsIndexOfAux x l i = -1 ↔ ¬ x ∈ l := by
  induction l generalizing i with
  | nil => simp [jsIndexOfAux]
  | cons y ys ih =>
      by_cases hxy : (y == x) = true
      · have hyx : y = x := by simpa using hxy
        subst hyx
        simp [jsIndexOfAux]
        omega
      · have hyx : ¬ y = x := by simpa using hxy
        have hne : (y == x) = false := beq_eq_false_iff_ne.mpr hyx
        have hxy' : ¬ x = y := fun h => hyx h.symm
        simp [jsIndexOfAux, hne, hxy', ih (by omega : (0 : Int) ≤ i + 1)]

/-- `l.indexOf(x) === -1` holds exactly when `x` is not in `l`. -/
theorem jsIndexOf_eq_neg_one {x : String} {l : List String} :
    jsIndexOf l x = -1 ↔ ¬ x ∈ l :=
  jsIndexOfAux_eq_neg_one (le_refl 0)

/-! ### Claim theorems -/

/-- C1: the rebuild check in `make` reports "rebuild needed" whenever the
cached manifest is absent; when a cached manifest object is present it
reports "no rebuild" exactly when the cached mapping equals the current
dependencies as a set of name→range pairs (key order irrelevant); and
checking a mapping against a cached copy of itself reports "no rebuild". -/
theorem make_rebuild_decision_correct (C D : DepsMap)
    (hC : nodupKeys C) (hD : nodupKeys D) :
    needsRebuild none (some D) = true ∧
    (needsRebuild (some (JsVal.obj C)) (some D) = false ↔
      ∀ p : String × String, p ∈ C ↔ p ∈ D) ∧
    needsRebuild (some (JsVal.obj D)) (some D) = false := by
  refine ⟨rfl, ?_, ?_⟩
  · rw [show needsRebuild (some (JsVal.obj C)) (some D) = !(mapEqual C D)
      from rfl]
    rw [Bool.not_eq_false']
    exact mapEqual_iff_pairSet hC hD
  · rw [show needsRebuild (some (JsVal.obj D)) (some D) = !(mapEqual D D)
      from rfl]
    rw [mapEqual_refl hD]
    rfl

/-- Witness for `make_rebuild_decision_correct` at concrete mappings. -/
theorem make_rebuild_decision_correct_witness :
    nodupKeys [("react", "^16")] ∧
    nodupKeys [("react", "^16"), ("lodash", "^4")] ∧
    (needsRebuild none (some [("react", "^16"), ("lodash", "^4")]) = true ∧
     (needsRebuild (some (JsVal.obj [("react", "^16")]))
        (some [("react", "^16"), ("lodash", "^4")]) = false ↔
       ∀ p : String × String,
         p ∈ [("react", "^16")] ↔ p ∈ [("react", "^16"), ("lodash", "^4")]) ∧
     needsRebuild (some (JsVal.obj [("react", "^16"), ("lodash", "^4")]))
        (some [("react", "^16"), ("lodash", "^4")]) = false) :=
  ⟨by decide, by decide,
    make_rebuild_decision_correct _ _ (by decide) (by decide)⟩

/-- C5: loading the snapshot never raises — a missing or unparsable dll.json
loads as "absent" and `make` then proceeds to a full rebuild rather than
failing. -/
theorem loadCache_silent_recovery (D : DepsMap) (cf : CacheFile) (log : LogOpt)
    (h : cf = CacheFile.missing ∨ cf = CacheFile.malformed) :
    loadCache cf = none ∧
    (make (PkgFile.parsed (some D)) cf log).decision =
      .ok (MakeAction.build (some D)) := by
  rcases h with rfl | rfl <;> exact ⟨rfl, rfl⟩

/-- Witness for `loadCache_silent_recovery` on a corrupt snapshot file. -/
theorem loadCache_silent_recovery_witness :
    (CacheFile.malformed = CacheFile.missing ∨
      CacheFile.malformed = CacheFile.malformed) ∧
    (loadCache CacheFile.malformed = none ∧
     (make (PkgFile.parsed (some [("react", "^16")])) CacheFile.malformed
        LogOpt.tru).decision = .ok (MakeAction.build (some [("react", "^16")]))) :=
  ⟨Or.inr rfl,
    loadCache_silent_recovery [("react", "^16")] CacheFile.malformed LogOpt.tru
      (Or.inr rfl)⟩

/-- C10: a package.json with no `dependencies` field is not treated as an
empty dependency set — the check decides "rebuild" against every cache
state (an existing cache included), and `build` then throws applying
`Object.keys` to `undefined`, so the promise rejects and dll.json is left
untouched. -/
theorem undefined_deps_build_rejects (cf : CacheFile)
    (il el : List String) (t : ℚ) (lg : LogOpt) :
    (make (PkgFile.parsed none) cf lg).decision = .ok (MakeAction.build none) ∧
    (∀ v : JsVal, needsRebuild (some v) none = true) ∧
    jsObjectKeys none = .error "Cannot convert undefined or null to object" ∧
    (build none il el none [] t lg cf).outcome =
      .error (.typeError "Cannot convert undefined or null to object") ∧
    (build none il el none [] t lg cf).cacheFile = cf := by
  refine ⟨?_, ?_, rfl, rfl, rfl⟩
  · cases cf with
    | missing => rfl
    | malformed => rfl
    | parsed v =>
        cases v with
        | obj m => rfl
        | null => rfl
  · intro v
    cases v with
    | obj m => rfl
    | null => rfl

/-- C2 evidence: when webpack reports compile errors (`stats.hasErrors()`),
`build` rejects carrying the diagnostics — but, because the
`reject(info.errors)` branch has no `return`, the callback still falls
through and writes `JSON.stringify(deps)` into dll.json: the snapshot file
is NOT left with its previous content. -/
theorem build_compile_error_still_writes_cache :
    (build (some [("react", "^16")]) [] [] none ["Module not found: left-pad"]
        1500000000000 LogOpt.tru CacheFile.missing).outcome =
      .error (.compileErrors ["Module not found: left-pad"]) ∧
    (build (some [("react", "^16")]) [] [] none ["Module not found: left-pad"]
        1500000000000 LogOpt.tru CacheFile.missing).cacheFile =
      CacheFile.parsed (JsVal.obj [("react", "^16")]) ∧
    CacheFile.parsed (JsVal.obj [("react", "^16")]) ≠ CacheFile.missing :=
  ⟨rfl, rfl, by decide⟩

/-- C3 counterexample: with dependencies {a: ^1, c: ^2}, include [a, b] and
exclude [b], the code produces the entry list [a, c, a] — the duplicate
"a" is kept, so the claimed result [a, c] is wrong. -/
theorem entryList_dedup_counterexample :
    entryList [("a", "^1"), ("c", "^2")] ["a", "b"] ["b"] = ["a", "c", "a"] ∧
    entryList [("a", "^1"), ("c", "^2")] ["a", "b"] ["b"] ≠ ["a", "c"] := by
  constructor
  · rfl
  · decide

/-- C3 amended: the entry list equals the dependency names in descriptor
order followed by the include names in list order, with every name of the
exclude list removed; duplicates between the dependency names and the
include list are NOT collapsed (a name in both appears twice). -/
theorem entryList_characterization (d : DepsMap) (il el : List String) :
    entryList d il el =
      ((d.map Prod.fst) ++ il).filter (fun x => decide (¬ x ∈ el)) := by
  unfold entryList
  apply List.filter_congr
  intro x _
  by_cases hmem : x ∈ el
  · have h1 : jsIndexOf el x ≠ -1 := fun h => (jsIndexOf_eq_neg_one.mp h) hmem
    simp [hmem, beq_eq_false_iff_ne.mpr h1]
  · have h2 : jsIndexOf el x = -1 := jsIndexOf_eq_neg_one.mpr hmem
    simp [hmem, h2]

/-- C4 evidence: the HTML hook unshifts the bundle filename
unconditionally, so two invocations in sequence leave "vendor.js" present
twice, not once — repeated invocation is not idempotent. -/
theorem inject_repeated_duplicates :
    injectScripts "vendor" (injectScripts "vendor" []) =
      ["vendor.js", "vendor.js"] ∧
    (injectScripts "vendor" (injectScripts "vendor" [])).count
      (dllAssetName "vendor") = 2 := by
  constructor
  · rfl
  · rfl

/-- C6: after a successful build of D the snapshot loads back to a value
deeply equal to D, and the next `make` over the unchanged descriptor
decides "skip" (no rebuild). -/
theorem build_roundtrip_no_rebuild (D : DepsMap) (hD : nodupKeys D)
    (il el : List String) (t : ℚ) (lg : LogOpt) (prev : CacheFile) :
    (build (some D) il el none [] t lg prev).outcome = .ok () ∧
    loadCache ((build (some D) il el none [] t lg prev).cacheFile) =
      some (JsVal.obj D) ∧
    isEqualJs (JsVal.obj D) (some D) = true ∧
    (make (PkgFile.parsed (some D))
        ((build (some D) il el none [] t lg prev).cacheFile) lg).decision =
      .ok MakeAction.skip := by
  refine ⟨rfl, rfl, mapEqual_refl hD, ?_⟩
  show (if skipBuild (some (JsVal.obj D)) (some D) then _ else _) = _
  rw [show skipBuild (some (JsVal.obj D)) (some D) = mapEqual D D from rfl]
  rw [mapEqual_refl hD]
  rfl

/-- Witness for `build_roundtrip_no_rebuild` at a concrete mapping. -/
theorem build_roundtrip_no_rebuild_witness :
    nodupKeys [("react", "^16"), ("lodash", "^4")] ∧
    ((build (some [("react", "^16"), ("lodash", "^4")]) [] [] none [] 1000
        LogOpt.tru CacheFile.missing).outcome = .ok () ∧
     loadCache ((build (some [("react", "^16"), ("lodash", "^4")]) [] [] none
        [] 1000 LogOpt.tru CacheFile.missing).cacheFile) =
      some (JsVal.obj [("react", "^16"), ("lodash", "^4")]) ∧
     isEqualJs (JsVal.obj [("react", "^16"), ("lodash", "^4")])
        (some [("react", "^16"), ("lodash", "^4")]) = true ∧
     (make (PkgFile.parsed (some [("react", "^16"), ("lodash", "^4")]))
        ((build (some [("react", "^16"), ("lodash", "^4")]) [] [] none [] 1000
          LogOpt.tru CacheFile.missing).cacheFile) LogOpt.tru).decision =
      .ok MakeAction.skip) :=
  ⟨by decide,
    build_roundtrip_no_rebuild [("react", "^16"), ("lodash", "^4")] (by decide)
      [] [] 1000 LogOpt.tru CacheFile.missing⟩

/-- C7: on the success path of every build the manifest mtime is set to
Date.now()/1000 - 10 — strictly earlier than the current time in seconds
by the fixed offset 10 — and the snapshot is persisted in the same step. -/
theorem build_backdates_manifest_mtime (m : DepsMap)
    (il el : List String) (t : ℚ) (lg : LogOpt) (prev : CacheFile) :
    (build (some m) il el none [] t lg prev).outcome = .ok () ∧
    (build (some m) il el none [] t lg prev).manifestMtime =
      some (t / 1000 - 10) ∧
    t / 1000 - 10 < t / 1000 ∧
    (build (some m) il el none [] t lg prev).cacheFile =
      CacheFile.parsed (JsVal.obj m) := by
  refine ⟨rfl, rfl, ?_, rfl⟩
  linarith [show (0 : ℚ) < 10 by norm_num]

/-- C8: a failed watcher-triggered rebuild leaves the recorded descriptor
timestamp unchanged and passes the failure to the host cycle callback, and
the next cycle's guard still sees a changed timestamp (so it retries); a
successful rebuild records the newly observed timestamp. -/
theorem watch_timestamp_update_invariant (st ts : JsTs) (e : String)
    (h1 : tsFalsy ts = false) (h2 : (ts == st) = false) :
    (watchRun st ts (.error e)).pkgTimestamp = st ∧
    (watchRun st ts (.error e)).callbackErr = some e ∧
    (watchRun st ts (.ok ())).pkgTimestamp = ts ∧
    (watchRun st ts (.ok ())).callbackErr = none ∧
    (tsFalsy ts || ts == (watchRun st ts (.error e)).pkgTimestamp) = false := by
  simp [watchRun, h1, h2]

/-- Witness for `watch_timestamp_update_invariant` at concrete timestamps. -/
theorem watch_timestamp_update_invariant_witness :
    tsFalsy (some 5) = false ∧ ((some 5 : JsTs) == some 0) = false ∧
    ((watchRun (some 0) (some 5) (.error "compile failed")).pkgTimestamp =
       some 0 ∧
     (watchRun (some 0) (some 5) (.error "compile failed")).callbackErr =
       some "compile failed" ∧
     (watchRun (some 0) (some 5) (.ok ())).pkgTimestamp = some 5 ∧
     (watchRun (some 0) (some 5) (.ok ())).callbackErr = none ∧
     (tsFalsy (some 5) ||
       (some 5 : JsTs) == (watchRun (some 0) (some 5)
         (.error "compile failed")).pkgTimestamp) = false) :=
  ⟨by decide, by decide,
    watch_timestamp_update_invariant (some 0) (some 5) "compile failed"
      (by decide) (by decide)⟩

/-- C9 evidence: the guard `log !== false || log !== 'none'` is identically
true (a disjunction of two tests that cannot both fail), so with logging
disabled (log = false or log = 'none') the first-run start message and the
build-success message are still printed, contradicting the claim. -/
theorem log_disabled_messages_still_print :
    logGate LogOpt.fls = true ∧ logGate LogOpt.noneStr = true ∧
    (make (PkgFile.parsed (some [("react", "^16")])) CacheFile.missing
      LogOpt.fls).startLogged = true ∧
    (build (some [("react", "^16")]) [] [] none [] 1000 LogOpt.fls
      CacheFile.missing).successLogged = true ∧
    (make (PkgFile.parsed (some [("react", "^16")])) CacheFile.missing
      LogOpt.noneStr).startLogged = true :=
  ⟨rfl, rfl, rfl, rfl, rfl⟩
